import Mathlib

/-!
Verification of the whisper STT server (scripts/whisper-server.py): a shallow
embedding of its module state, model cache, device resolution, base64/audio
ingestion and the two transcription endpoints, followed by theorems settling
the specification's claims. External effects (the torch probe, the engine
constructor, file writes, unlink, inference) are passed in explicitly as
outcome parameters; everything else is translated line by line from the source.
-/

namespace WhisperServer

/-- The fixed list of supported model identifiers (source line 46). -/
def AVAILABLE_MODELS : List String :=
  ["tiny", "tiny.en", "base", "base.en", "small", "small.en",
   "medium", "medium.en", "large-v2", "large-v3"]

/-- Environment-derived configuration (source lines 41-44): the models
directory, default model identifier, device selection and compute type. -/
structure Config where
  MODELS_DIR : String
  DEFAULT_MODEL : String
  DEVICE : String
  COMPUTE_TYPE : String
deriving DecidableEq

/-- The configuration when no environment variable overrides a default. -/
def defaultConfig : Config :=
  ⟨"/root/.cache/whisper", "base", "auto", "auto"⟩

/-- Outcome of the probe `import torch; torch.cuda.is_available()` (source
lines 66-67). `importError` models `import torch` raising ImportError;
`available b` models a successful import with the availability call returning
the boolean `b` (per its contract that call returns a boolean). -/
inductive TorchProbe where
  | importError : TorchProbe
  | available : Bool → TorchProbe
deriving DecidableEq

/-- The probe as a fallible computation: the import may raise ImportError. -/
def probeResult : TorchProbe → Except String Bool
  | TorchProbe.importError => Except.error "ImportError"
  | TorchProbe.available b => Except.ok b

/-- Device resolution (source lines 63-69): when DEVICE is "auto", run the
probe and map cuda availability to "cuda"/"cpu", catching exactly ImportError
(`except ImportError: device = "cpu"`); any other exception would propagate.
Otherwise DEVICE is used as given. -/
def resolveDevice (DEVICE : String) (probe : TorchProbe) : Except String String :=
  if DEVICE = "auto" then
    match probeResult probe with
    | Except.ok b => Except.ok (if b then "cuda" else "cpu")
    | Except.error e => if e = "ImportError" then Except.ok "cpu" else Except.error e
  else Except.ok DEVICE

/-- Compute-type resolution (source lines 71-73). -/
def resolveComputeType (COMPUTE_TYPE : String) (device : String) : String :=
  if COMPUTE_TYPE = "auto" then (if device = "cuda" then "float16" else "int8")
  else COMPUTE_TYPE

/-- A constructed faster-whisper engine instance: the arguments that were
passed to the WhisperModel constructor (source lines 75-80); immutable once
constructed. -/
structure WhisperModel where
  model_name : String
  device : String
  compute_type : String
  download_root : String
deriving DecidableEq

/-- The module-level mutable state (source lines 48-49): the model cache and
the currently active model name. -/
structure ServerState where
  model_cache : List (String × WhisperModel)
  current_model_name : Option String
deriving DecidableEq

/-- Dictionary lookup in the model cache. -/
def lookupModel (cache : List (String × WhisperModel)) (name : String) :
    Option WhisperModel :=
  match cache with
  | [] => none
  | (k, m) :: rest => if k = name then some m else lookupModel rest name

/-- Identifier normalization (source lines 55-56): an identifier outside
AVAILABLE_MODELS is replaced by the configured default. -/
def normalizeModelName (cfg : Config) (name : String) : String :=
  if name ∈ AVAILABLE_MODELS then name else cfg.DEFAULT_MODEL

/-- get_model (source lines 52-86), with its two external effects explicit:
`probe` is the torch probe outcome and `loadError` says whether the
WhisperModel constructor raises (`some msg`) or succeeds (`none`). Returns the
python function's result (the model, or the propagated exception) together
with the module state after the call. -/
def getModel (cfg : Config) (probe : TorchProbe) (loadError : Option String)
    (model_name : String) (s : ServerState) :
    Except String WhisperModel × ServerState :=
  let name := normalizeModelName cfg model_name
  match lookupModel s.model_cache name with
  | some m => (Except.ok m, s)
  | none =>
    match resolveDevice cfg.DEVICE probe with
    | Except.error e => (Except.error e, s)
    | Except.ok device =>
      let compute_type := resolveComputeType cfg.COMPUTE_TYPE device
      match loadError with
      | some e => (Except.error e, s)
      | none =>
        let m : WhisperModel := ⟨name, device, compute_type, cfg.MODELS_DIR⟩
        (Except.ok m, ⟨(name, m) :: s.model_cache, some name⟩)

/-- The value of a standard base64 alphabet character, `none` otherwise. -/
def b64CharVal (c : Char) : Option Nat :=
  if ('A' ≤ c ∧ c ≤ 'Z') then some (c.toNat - 65)
  else if ('a' ≤ c ∧ c ≤ 'z') then some (c.toNat - 97 + 26)
  else if ('0' ≤ c ∧ c ≤ '9') then some (c.toNat - 48 + 52)
  else if c = '+' then some 62
  else if c = '/' then some 63
  else none

/-- Decode a run of base64 characters four at a time; trailing `=` padding
closes the stream. Yields `none` (Incorrect padding) when the character count
is not a multiple of four or padding is misplaced. -/
def b64decodeChunks : List Char → Option (List Nat)
  | [] => some []
  | c1 :: c2 :: c3 :: c4 :: rest =>
    match b64CharVal c1, b64CharVal c2, b64CharVal c3, b64CharVal c4 with
    | some a, some b, some c, some d =>
      match b64decodeChunks rest with
      | some bs =>
        some ((a * 4 + b / 16) :: ((b % 16) * 16 + c / 4) :: ((c % 4) * 64 + d) :: bs)
      | none => none
    | some a, some b, some c, none =>
      if c4 = '=' ∧ rest = [] then some [a * 4 + b / 16, (b % 16) * 16 + c / 4]
      else none
    | some a, some b, none, none =>
      if c3 = '=' ∧ c4 = '=' ∧ rest = [] then some [a * 4 + b / 16]
      else none
    | _, _, _, _ => none
  | _ => none

/-- Model of Python `base64.b64decode` with its default lenient validation:
characters outside the alphabet and other than `=` are discarded, then the
remainder is decoded in groups of four; `none` models the binascii error. -/
def b64decode (s : String) : Option (List Nat) :=
  b64decodeChunks (s.data.filter (fun c => (b64CharVal c).isSome || c == '='))

/-- Python `str.split(",")` on a character list: the comma-separated pieces
(an empty input gives one empty piece, as in Python). -/
def pySplitComma : List Char → List (List Char)
  | [] => [[]]
  | c :: rest =>
    if c = ',' then [] :: pySplitComma rest
    else
      match pySplitComma rest with
      | [] => [[c]]
      | g :: gs => (c :: g) :: gs

/-- Source lines 201-202: when a comma is present the code keeps
`split(",")[1]`, the piece between the first and the second comma. -/
def stripDataUrl (s : String) : String :=
  if ',' ∈ s.data then String.mk ((pySplitComma s.data).getD 1 []) else s

/-- Everything after the first comma. -/
def afterFirstComma : List Char → List Char
  | [] => []
  | c :: rest => if c = ',' then rest else afterFirstComma rest

/-- The decode step as the specification words it: strip everything up to and
including the FIRST comma and keep the ENTIRE remainder. Stated only for
comparison with `stripDataUrl`, which is the translation of the source. -/
def stripDataUrlSpec (s : String) : String :=
  if ',' ∈ s.data then String.mk (afterFirstComma s.data) else s

/-- Model of pathlib `Path(name).suffix`: the substring from the last dot,
when that dot is neither the first nor the last character (path separators in
the name are not modelled; the claims never exercise them). -/
def pathSuffix (name : String) : String :=
  let cs := name.data
  match ((List.range cs.length).filter (fun i => cs.getD i ' ' == '.')).getLast? with
  | none => ""
  | some i => if 0 < i ∧ i + 1 < cs.length then String.mk (cs.drop i) else ""

/-- One transcription segment as produced by the engine. Numeric fields are
carried opaquely as integers: the pipeline only passes them through, so their
representation never matters to the claims. `stop` models the `end` attribute. -/
structure Segment where
  start : Int
  stop : Int
  text : String
  avg_logprob : Int
deriving DecidableEq

/-- The summary metadata returned beside the segment stream. -/
structure TranscriptionInfo where
  language : String
  language_probability : Int
  duration : Int
deriving DecidableEq

/-- The fixed voice-activity-detection parameters (source lines 146-149). -/
structure VadParameters where
  min_silence_duration_ms : Nat
  speech_pad_ms : Nat
deriving DecidableEq

/-- The arguments the pipeline passes to the engine's transcribe call
(source lines 141-150 and 212-221). -/
structure InferenceArgs where
  path : String
  language : Option String
  task : String
  vad_filter : Bool
  vad_parameters : VadParameters
deriving DecidableEq

/-- An uploaded multipart file: its filename and content bytes. -/
structure UploadFile where
  filename : String
  content : List Nat
deriving DecidableEq

/-- The JSON body of POST /transcribe-base64 (source line 187: a dict read
with .get, so every field may be absent). -/
structure B64Request where
  audio : Option String
  model : Option String
  language : Option String
  format : Option String
deriving DecidableEq

deriving instance DecidableEq for Except

/-- An HTTPException: status code and detail message. -/
structure HTTPError where
  status_code : Nat
  detail : String
deriving DecidableEq

/-- One segment of the /transcribe response (source lines 161-169). -/
structure SegmentOut where
  start : Int
  stop : Int
  text : String
  confidence : Int
deriving DecidableEq

/-- The /transcribe success response body (source lines 156-170). -/
structure TranscribeResponse where
  text : String
  language : String
  language_probability : Int
  duration : Int
  segments : List SegmentOut
deriving DecidableEq

/-- The /transcribe-base64 success response body (source lines 226-231). -/
structure B64Response where
  text : String
  language : String
  language_probability : Int
  duration : Int
deriving DecidableEq

/-- The world visible to one request: the module state plus the temp
directory, as (filename, contents) entries currently existing on disk. -/
structure World where
  state : ServerState
  files : List (String × List Nat)
deriving DecidableEq

/-- Per-call external behaviour: the unique stem NamedTemporaryFile picks for
this call, and whether each fallible external step raises (`some message`) or
succeeds. `inference` is the engine's transcribe call. -/
structure CallEnv where
  tmpName : String
  readError : Option String
  writeError : Option String
  unlinkOk : Bool
  probe : TorchProbe
  loadError : Option String
  inference : InferenceArgs → Except String (List Segment × TranscriptionInfo)

/-- os.unlink wrapped in `try/except: pass` (source lines 179-183 and
238-242): best effort, a deletion failure is swallowed. -/
def unlinkBestEffort (ok : Bool) (fname : String) (files : List (String × List Nat)) :
    List (String × List Nat) :=
  if ok then files.filter (fun en => en.1 != fname) else files

/-- Model of Python str.strip(): drop leading and trailing whitespace
characters (space, tab, newline, carriage return; exotic Unicode whitespace is
not modelled, no claim exercises it). -/
def pyStrip (s : String) : String :=
  String.mk (((s.data.dropWhile Char.isWhitespace).reverse.dropWhile
    Char.isWhitespace).reverse)

/-- Source lines 154 and 224: the space-join of the individually stripped
segment texts, in order. -/
def fullTextOf (segments_list : List Segment) : String :=
  String.intercalate " " (segments_list.map (fun sg => pyStrip sg.text))

/-- The per-segment records of the /transcribe response (source lines 161-169). -/
def segmentsOut (segments_list : List Segment) : List SegmentOut :=
  segments_list.map (fun sg => ⟨sg.start, sg.stop, pyStrip sg.text, sg.avg_logprob⟩)

/-- POST /transcribe (source lines 120-183), as a function of the request,
the call environment and the world. Mirrors the source's control flow: the
falsy-filename check, NamedTemporaryFile creation, the awaited read and the
write (tmp_path is assigned only after a successful write), get_model,
inference, response assembly, the generic `except Exception` handler mapping
any exception to status 500, and the finally block that unlinks only when
tmp_path was assigned. -/
def transcribe (cfg : Config) (env : CallEnv) (audio : UploadFile)
    (model : String) (language : Option String) (task : String) (w : World) :
    Except HTTPError TranscribeResponse × World :=
  if audio.filename = "" then
    (Except.error ⟨400, "No audio file provided"⟩, w)
  else
    let suffix := if pathSuffix audio.filename = "" then ".webm" else pathSuffix audio.filename
    let tmp_path := env.tmpName ++ suffix
    let filesCreated := (tmp_path, ([] : List Nat)) :: w.files
    match env.readError with
    | some e => (Except.error ⟨500, e⟩, ⟨w.state, filesCreated⟩)
    | none =>
      match env.writeError with
      | some e => (Except.error ⟨500, e⟩, ⟨w.state, filesCreated⟩)
      | none =>
        let filesWritten := (tmp_path, audio.content) :: w.files
        match getModel cfg env.probe env.loadError model w.state with
        | (Except.error e, st) =>
          (Except.error ⟨500, e⟩, ⟨st, unlinkBestEffort env.unlinkOk tmp_path filesWritten⟩)
        | (Except.ok _m, st) =>
          match env.inference ⟨tmp_path, language, task, true, ⟨500, 400⟩⟩ with
          | Except.error e =>
            (Except.error ⟨500, e⟩, ⟨st, unlinkBestEffort env.unlinkOk tmp_path filesWritten⟩)
          | Except.ok (segments, info) =>
            (Except.ok ⟨fullTextOf segments, info.language, info.language_probability,
                        info.duration, segmentsOut segments⟩,
             ⟨st, unlinkBestEffort env.unlinkOk tmp_path filesWritten⟩)

/-- POST /transcribe-base64 (source lines 186-242). Mirrors the source: the
falsy-audio check, data-URL comma handling via split(",")[1], base64 decoding
(a decode exception reaches the generic handler as status 500 with no file
created, since tmp_path is still None), temp file creation and write (tmp_path
assigned only after a successful write), get_model, inference, response
assembly, and the finally block unlinking only when tmp_path was assigned.
The 500 detail for a decode failure carries the binascii message, whose exact
wording varies by input and is modelled by one representative string. -/
def transcribeBase64 (cfg : Config) (env : CallEnv) (request : B64Request)
    (w : World) : Except HTTPError B64Response × World :=
  let audio_data0 := request.audio.getD ""
  let model_name := request.model.getD cfg.DEFAULT_MODEL
  let language := request.language
  let file_format := request.format.getD "webm"
  if audio_data0 = "" then
    (Except.error ⟨400, "No audio data provided"⟩, w)
  else
    let audio_data := stripDataUrl audio_data0
    match b64decode audio_data with
    | none => (Except.error ⟨500, "Invalid base64-encoded string"⟩, w)
    | some audio_bytes =>
      let tmp_path := env.tmpName ++ "." ++ file_format
      let filesCreated := (tmp_path, ([] : List Nat)) :: w.files
      match env.writeError with
      | some e => (Except.error ⟨500, e⟩, ⟨w.state, filesCreated⟩)
      | none =>
        let filesWritten := (tmp_path, audio_bytes) :: w.files
        match getModel cfg env.probe env.loadError model_name w.state with
        | (Except.error e, st) =>
          (Except.error ⟨500, e⟩, ⟨st, unlinkBestEffort env.unlinkOk tmp_path filesWritten⟩)
        | (Except.ok _m, st) =>
          match env.inference ⟨tmp_path, language, "transcribe", true, ⟨500, 400⟩⟩ with
          | Except.error e =>
            (Except.error ⟨500, e⟩, ⟨st, unlinkBestEffort env.unlinkOk tmp_path filesWritten⟩)
          | Except.ok (segments, info) =>
            (Except.ok ⟨fullTextOf segments, info.language,
                        info.language_probability, info.duration⟩,
             ⟨st, unlinkBestEffort env.unlinkOk tmp_path filesWritten⟩)

/-- The GET /health response (source lines 101-108). -/
structure HealthResponse where
  status : String
  model_loaded : Bool
  current_model : Option String
  available_models : List String
deriving DecidableEq

/-- GET /health (source lines 101-108). -/
def health (s : ServerState) : HealthResponse :=
  ⟨"healthy", s.current_model_name.isSome, s.current_model_name, AVAILABLE_MODELS⟩

/-- The GET /models response (source lines 111-117). -/
structure ModelsResponse where
  models : List String
  current : Option String
  default : String
deriving DecidableEq

/-- GET /models (source lines 111-117). -/
def listModels (cfg : Config) (s : ServerState) : ModelsResponse :=
  ⟨AVAILABLE_MODELS, s.current_model_name, cfg.DEFAULT_MODEL⟩

/-- startup_event (source lines 89-98): pre-load the default model, swallowing
any exception; the resulting module state is the one get_model leaves. -/
def startupEvent (cfg : Config) (probe : TorchProbe) (loadError : Option String)
    (s : ServerState) : ServerState :=
  (getModel cfg probe loadError cfg.DEFAULT_MODEL s).2

/-- One server operation, for stating invariants across the whole surface. -/
inductive Op where
  | opGetModel (probe : TorchProbe) (loadError : Option String) (name : String)
  | opStartup (probe : TorchProbe) (loadError : Option String)
  | opHealth
  | opListModels
  | opTranscribe (env : CallEnv) (audio : UploadFile) (model : String)
      (language : Option String) (task : String)
  | opTranscribeBase64 (env : CallEnv) (request : B64Request)

/-- The world after running one operation. -/
def applyOp (cfg : Config) (op : Op) (w : World) : World :=
  match op with
  | Op.opGetModel probe loadError name =>
      ⟨(getModel cfg probe loadError name w.state).2, w.files⟩
  | Op.opStartup probe loadError => ⟨startupEvent cfg probe loadError w.state, w.files⟩
  | Op.opHealth => w
  | Op.opListModels => w
  | Op.opTranscribe env audio model language task =>
      (transcribe cfg env audio model language task w).2
  | Op.opTranscribeBase64 env request => (transcribeBase64 cfg env request w).2

/-- The module-state invariant: current_model_name is None or a cache key. -/
def stateInv (s : ServerState) : Prop :=
  ∀ n, s.current_model_name = some n → (lookupModel s.model_cache n).isSome = true

/-- Program counter of one thread inside get_model for an uncached
identifier: about to run the cache membership test (source line 58), about to
run the construct-and-insert block (source lines 75-83), or returned. Each pc
value is one atomic region; the source holds no lock between the membership
test and the load, so a scheduler may interleave the two threads there. -/
inductive LoadPc where
  | checkCache
  | runLoad
  | finished
deriving DecidableEq

/-- Shared state of the load race: the cached identifiers in insertion order,
the number of WhisperModel constructions performed so far (the load counter),
and the two threads' program counters. -/
structure RaceState where
  cache : List String
  loads : Nat
  pc1 : LoadPc
  pc2 : LoadPc
deriving DecidableEq

/-- One atomic step of a thread running get_model for `name`. -/
def stepLoad (name : String) (cache : List String) (loads : Nat) :
    LoadPc → List String × Nat × LoadPc
  | LoadPc.checkCache =>
      if name ∈ cache then (cache, loads, LoadPc.finished)
      else (cache, loads, LoadPc.runLoad)
  | LoadPc.runLoad => (name :: cache, loads + 1, LoadPc.finished)
  | LoadPc.finished => (cache, loads, LoadPc.finished)

/-- One scheduler step: run one atomic step of thread 1 (false) or thread 2
(true), both executing get_model for the same identifier. -/
def raceStep (name : String) (t : Bool) (r : RaceState) : RaceState :=
  if t then
    match stepLoad name r.cache r.loads r.pc2 with
    | (c, l, pc) => ⟨c, l, r.pc1, pc⟩
  else
    match stepLoad name r.cache r.loads r.pc1 with
    | (c, l, pc) => ⟨c, l, pc, r.pc2⟩

/-- Run the two-thread race under a given schedule. -/
def runRace (name : String) (sched : List Bool) (r : RaceState) : RaceState :=
  match sched with
  | [] => r
  | t :: rest => runRace name rest (raceStep name t r)

/-- Device resolution always returns a value: the only failure the probe can
produce is the ImportError the source catches. -/
theorem resolveDevice_ok (DEVICE : String) (probe : TorchProbe) :
    ∃ d, resolveDevice DEVICE probe = Except.ok d := by
  unfold resolveDevice probeResult
  cases probe with
  | importError => by_cases h : DEVICE = "auto" <;> simp [h]
  | available b => by_cases h : DEVICE = "auto" <;> cases b <;> simp [h]

/-- C7: the device-resolution step never raises: for every probe outcome the
result is a value, and when the device is not explicitly configured ("auto"),
a probe failure or unavailable acceleration resolves to "cpu". -/
theorem resolveDevice_total (DEVICE : String) (probe : TorchProbe) :
    (∃ d, resolveDevice DEVICE probe = Except.ok d) ∧
    (DEVICE = "auto" →
      (probe = TorchProbe.importError ∨ probe = TorchProbe.available false) →
      resolveDevice DEVICE probe = Except.ok "cpu") := by
  refine ⟨resolveDevice_ok DEVICE probe, ?_⟩
  intro hauto hp
  subst hauto
  rcases hp with hp | hp <;> subst hp <;> rfl

/-- Witness for C7 at the concrete probe outcomes. -/
theorem resolveDevice_total_witness :
    resolveDevice "auto" TorchProbe.importError = Except.ok "cpu" :=
  (resolveDevice_total "auto" TorchProbe.importError).2 rfl (Or.inl rfl)

/-- C5: an identifier outside AVAILABLE_MODELS is silently replaced by the
configured default before any lookup or load: the call's result and the
resulting module state equal those of requesting the configured default. -/
theorem getModel_unknown_identifier (cfg : Config) (probe : TorchProbe)
    (loadError : Option String) (name : String) (s : ServerState)
    (h : name ∉ AVAILABLE_MODELS) :
    getModel cfg probe loadError name s =
      getModel cfg probe loadError cfg.DEFAULT_MODEL s := by
  unfold getModel normalizeModelName
  by_cases hd : cfg.DEFAULT_MODEL ∈ AVAILABLE_MODELS <;> simp [h, hd]

/-- Witness for C5 at the unrecognized identifier "large-v1". -/
theorem getModel_unknown_identifier_witness :
    "large-v1" ∉ AVAILABLE_MODELS ∧
    getModel defaultConfig TorchProbe.importError none "large-v1" ⟨[], none⟩ =
      getModel defaultConfig TorchProbe.importError none
        defaultConfig.DEFAULT_MODEL ⟨[], none⟩ :=
  ⟨by decide,
   getModel_unknown_identifier defaultConfig TorchProbe.importError none
     "large-v1" ⟨[], none⟩ (by decide)⟩

/-- C8: when the engine constructor raises, get_model propagates the failure
and leaves the module state untouched; the identifier stays absent from the
cache, and a subsequent request for it reaches the constructor again (a second
failure outcome is again propagated, not served from a poisoned entry). -/
theorem getModel_failed_load_no_poison (cfg : Config) (probe : TorchProbe)
    (e : String) (name : String) (s : ServerState)
    (h : lookupModel s.model_cache (normalizeModelName cfg name) = none) :
    (getModel cfg probe (some e) name s).1 = Except.error e ∧
    (getModel cfg probe (some e) name s).2 = s ∧
    lookupModel ((getModel cfg probe (some e) name s).2).model_cache
      (normalizeModelName cfg name) = none ∧
    (∀ e2, (getModel cfg probe (some e2) name
      ((getModel cfg probe (some e) name s).2)).1 = Except.error e2) := by
  obtain ⟨d, hd⟩ := resolveDevice_ok cfg.DEVICE probe
  refine ⟨?_, ?_, ?_, ?_⟩ <;> simp [getModel, h, hd]

/-- Witness for C8: a failing load of "small" on an empty cache. -/
theorem getModel_failed_load_no_poison_witness :
    lookupModel (⟨[], none⟩ : ServerState).model_cache
      (normalizeModelName defaultConfig "small") = none ∧
    (getModel defaultConfig TorchProbe.importError (some "download failed")
      "small" ⟨[], none⟩).2 = ⟨[], none⟩ :=
  ⟨rfl,
   (getModel_failed_load_no_poison defaultConfig TorchProbe.importError
     "download failed" "small" ⟨[], none⟩ rfl).2.1⟩

/-- get_model preserves the module-state invariant: it inserts into the cache
and assigns current_model_name in the same breath (source lines 82-83). -/
theorem getModel_preserves_inv (cfg : Config) (probe : TorchProbe)
    (loadError : Option String) (name : String) (s : ServerState)
    (h : stateInv s) : stateInv (getModel cfg probe loadError name s).2 := by
  unfold getModel
  cases hl : lookupModel s.model_cache (normalizeModelName cfg name) with
  | some m => simpa [hl] using h
  | none =>
    cases hd : resolveDevice cfg.DEVICE probe with
    | error e => simpa [hl, hd] using h
    | ok device =>
      cases loadError with
      | some e => simpa [hl, hd] using h
      | none =>
        simp only [hl, hd]
        intro n hn
        simp only [Option.some.injEq] at hn
        subst hn
        simp [lookupModel]

/-- The /transcribe endpoint changes the module state only through get_model. -/
theorem transcribe_preserves_inv (cfg : Config) (env : CallEnv)
    (audio : UploadFile) (model : String) (language : Option String)
    (task : String) (w : World) (h : stateInv w.state) :
    stateInv (transcribe cfg env audio model language task w).2.state := by
  have hg := getModel_preserves_inv cfg env.probe env.loadError model w.state h
  simp only [transcribe]
  split
  · exact h
  split
  · exact h
  split
  · exact h
  rcases hgm : getModel cfg env.probe env.loadError model w.state with ⟨res, st⟩
  rw [hgm] at hg
  cases res with
  | error e => simpa using hg
  | ok m =>
    split
    all_goals rename_i a b heq
    all_goals injection heq with h1 h2
    · exact Except.noConfusion h1
    · subst h2
      split <;> simpa using hg

/-- The /transcribe-base64 endpoint changes the module state only through
get_model. -/
theorem transcribeBase64_preserves_inv (cfg : Config) (env : CallEnv)
    (request : B64Request) (w : World) (h : stateInv w.state) :
    stateInv (transcribeBase64 cfg env request w).2.state := by
  have hg := getModel_preserves_inv cfg env.probe env.loadError
    (request.model.getD cfg.DEFAULT_MODEL) w.state h
  simp only [transcribeBase64]
  split
  · exact h
  split
  · exact h
  split
  · exact h
  rcases hgm : getModel cfg env.probe env.loadError
      (request.model.getD cfg.DEFAULT_MODEL) w.state with ⟨res, st⟩
  rw [hgm] at hg
  cases res with
  | error e => simpa using hg
  | ok m =>
    split
    all_goals rename_i a b heq
    all_goals injection heq with h1 h2
    · exact Except.noConfusion h1
    · subst h2
      split <;> simpa using hg

/-- C10: every operation preserves the invariant that current_model_name is
None or a key present in model_cache, so /health's model_loaded flag is
truthful whenever current_model_name is non-None. -/
theorem stateInv_preserved (cfg : Config) (op : Op) (w : World)
    (h : stateInv w.state) :
    stateInv (applyOp cfg op w).state ∧
    ((health w.state).model_loaded = true →
      ∃ n, w.state.current_model_name = some n ∧
        (lookupModel w.state.model_cache n).isSome = true) := by
  constructor
  · cases op with
    | opGetModel probe loadError name => exact getModel_preserves_inv cfg probe loadError name w.state h
    | opStartup probe loadError => exact getModel_preserves_inv cfg probe loadError cfg.DEFAULT_MODEL w.state h
    | opHealth => exact h
    | opListModels => exact h
    | opTranscribe env audio model language task => exact transcribe_preserves_inv cfg env audio model language task w h
    | opTranscribeBase64 env request => exact transcribeBase64_preserves_inv cfg env request w h
  · intro hl
    unfold health at hl
    cases hc : w.state.current_model_name with
    | none => rw [hc] at hl; simp at hl
    | some n => exact ⟨n, rfl, h n hc⟩

/-- Witness for C10: load "small" into an empty-state server. -/
theorem stateInv_preserved_witness :
    stateInv (applyOp defaultConfig
      (Op.opGetModel TorchProbe.importError none "small") ⟨⟨[], none⟩, []⟩).state :=
  (stateInv_preserved defaultConfig
    (Op.opGetModel TorchProbe.importError none "small") ⟨⟨[], none⟩, []⟩
    (fun _n hn => Option.noConfusion hn)).1

/-- C3: a falsy audio field in either endpoint fails fast with the 400
client error, and the whole world is returned unchanged: no temporary file is
created and the model cache is untouched (no lookup or load happens). -/
theorem empty_audio_fails_fast (cfg : Config) (env : CallEnv)
    (audio : UploadFile) (model : String) (language : Option String)
    (task : String) (request : B64Request) (w : World) :
    (audio.filename = "" →
      transcribe cfg env audio model language task w =
        (Except.error ⟨400, "No audio file provided"⟩, w)) ∧
    ((request.audio = none ∨ request.audio = some "") →
      transcribeBase64 cfg env request w =
        (Except.error ⟨400, "No audio data provided"⟩, w)) := by
  constructor
  · intro h
    unfold transcribe
    simp [h]
  · intro h
    unfold transcribeBase64
    rcases h with h | h <;> simp [h]

/-- Witness for C3: an empty multipart filename and an absent base64 field. -/
theorem empty_audio_fails_fast_witness :
    transcribe defaultConfig
      ⟨"/tmp/tmpw3", none, none, true, TorchProbe.importError, none,
        fun _ => Except.error "unreached"⟩
      ⟨"", [1, 2, 3]⟩ "base" none "transcribe" ⟨⟨[], none⟩, []⟩ =
      (Except.error ⟨400, "No audio file provided"⟩, ⟨⟨[], none⟩, []⟩) ∧
    transcribeBase64 defaultConfig
      ⟨"/tmp/tmpw3", none, none, true, TorchProbe.importError, none,
        fun _ => Except.error "unreached"⟩
      ⟨none, none, none, none⟩ ⟨⟨[], none⟩, []⟩ =
      (Except.error ⟨400, "No audio data provided"⟩, ⟨⟨[], none⟩, []⟩) :=
  ⟨(empty_audio_fails_fast defaultConfig _ ⟨"", [1, 2, 3]⟩ "base" none
      "transcribe" ⟨none, none, none, none⟩ ⟨⟨[], none⟩, []⟩).1 rfl,
   (empty_audio_fails_fast defaultConfig _ ⟨"", [1, 2, 3]⟩ "base" none
      "transcribe" ⟨none, none, none, none⟩ ⟨⟨[], none⟩, []⟩).2 (Or.inl rfl)⟩

/-- Python split never yields an empty list of pieces. -/
theorem pySplitComma_ne_nil (cs : List Char) : pySplitComma cs ≠ [] := by
  induction cs with
  | nil => simp [pySplitComma]
  | cons c rest ih =>
    by_cases hc : c = ','
    · simp [pySplitComma, hc]
    · simp only [pySplitComma, hc, if_false]
      cases pySplitComma rest with
      | nil => simp
      | cons g gs => simp

/-- A comma-free string splits into the single piece that is itself. -/
theorem pySplitComma_no_comma (cs : List Char) (h : ',' ∉ cs) :
    pySplitComma cs = [cs] := by
  induction cs with
  | nil => rfl
  | cons c rest ih =>
    have hc : ¬c = ',' := by
      intro hh
      exact h (by rw [hh]; exact List.mem_cons_self _ _)
    have hr : ',' ∉ rest := fun hh => h (List.mem_cons_of_mem _ hh)
    simp only [pySplitComma, hc, if_false, ih hr]

/-- With at most one comma, piece number 1 of the split is exactly the suffix
after the first comma. -/
theorem pySplitComma_getD_afterFirst (cs : List Char) (hmem : ',' ∈ cs)
    (hcount : cs.count ',' ≤ 1) :
    (pySplitComma cs).getD 1 [] = afterFirstComma cs := by
  induction cs with
  | nil => cases hmem
  | cons c rest ih =>
    by_cases hc : c = ','
    · subst hc
      have h0 : rest.count ',' = 0 := by
        simp only [List.count_cons, beq_self_eq_true, if_true] at hcount
        omega
      have hnm : ',' ∉ rest := by
        rw [← List.count_eq_zero]
        exact h0
      simp [pySplitComma, afterFirstComma, pySplitComma_no_comma rest hnm]
    · have hmem2 : ',' ∈ rest := by
        rcases List.mem_cons.mp hmem with hh | hh
        · exact absurd hh.symm hc
        · exact hh
      have hcount2 : rest.count ',' ≤ 1 := by
        simp only [List.count_cons, beq_iff_eq, hc, if_false] at hcount
        omega
      simp only [pySplitComma, hc, if_false, afterFirstComma]
      cases hps : pySplitComma rest with
      | nil => exact absurd hps (pySplitComma_ne_nil rest)
      | cons g gs =>
        have hih := ih hmem2 hcount2
        rw [hps] at hih
        simpa using hih

/-- C4 counterexample: on a payload with a second comma the code decodes only
the piece between the first and second comma, not the entire remainder after
the first comma; the decoded bytes differ. -/
theorem stripDataUrl_not_entire_remainder :
    stripDataUrl "data:audio/webm;base64,AAAA,BBBB" = "AAAA" ∧
    stripDataUrlSpec "data:audio/webm;base64,AAAA,BBBB" = "AAAA,BBBB" ∧
    b64decode (stripDataUrl "data:audio/webm;base64,AAAA,BBBB") ≠
      b64decode (stripDataUrlSpec "data:audio/webm;base64,AAAA,BBBB") := by
  refine ⟨rfl, rfl, ?_⟩
  decide

/-- C4 amended: for payloads with at most one comma — in particular every
well-formed data-URL preamble — split(",")[1] coincides with stripping
everything up to and including the first comma and decoding the entire
remainder, and commaless payloads are decoded unchanged. -/
theorem stripDataUrl_single_comma (s : String) (h : s.data.count ',' ≤ 1) :
    stripDataUrl s = stripDataUrlSpec s ∧
    b64decode (stripDataUrl s) = b64decode (stripDataUrlSpec s) := by
  have hmain : stripDataUrl s = stripDataUrlSpec s := by
    unfold stripDataUrl stripDataUrlSpec
    by_cases hm : ',' ∈ s.data
    · rw [if_pos hm, if_pos hm]
      exact congrArg String.mk (pySplitComma_getD_afterFirst s.data hm h)
    · rw [if_neg hm, if_neg hm]
  exact ⟨hmain, by rw [hmain]⟩

/-- Witness for C4's amended claim on the spec's own scenario payload. -/
theorem stripDataUrl_single_comma_witness :
    ("data:audio/webm;base64,AAAA".data.count ',' ≤ 1) ∧
    stripDataUrl "data:audio/webm;base64,AAAA" =
      stripDataUrlSpec "data:audio/webm;base64,AAAA" :=
  ⟨by decide, (stripDataUrl_single_comma "data:audio/webm;base64,AAAA" (by decide)).1⟩

/-- C2 counterexample: a present but undecodable base64 payload ("AAA" has
invalid padding) is surfaced with status 500 — the generic server error — not
as a 400 client error. -/
theorem undecodable_base64_gets_500 :
    (transcribeBase64 defaultConfig
      ⟨"/tmp/tmpc2", none, none, true, TorchProbe.importError, none,
        fun _ => Except.error "unreached"⟩
      ⟨some "AAA", none, none, none⟩ ⟨⟨[], none⟩, []⟩).1 =
      Except.error ⟨500, "Invalid base64-encoded string"⟩ := rfl

/-- C2 amended: for every request whose audio field is present (truthy) but
not decodable, the decode exception reaches the generic handler: the call
fails with status 500 carrying the decoder's message, and the world (files and
module state) is unchanged. -/
theorem undecodable_base64_server_error (cfg : Config) (env : CallEnv)
    (request : B64Request) (w : World) (s : String)
    (hs : request.audio = some s) (hne : s ≠ "")
    (hdec : b64decode (stripDataUrl s) = none) :
    transcribeBase64 cfg env request w =
      (Except.error ⟨500, "Invalid base64-encoded string"⟩, w) := by
  simp only [transcribeBase64, hs, Option.getD_some]
  simp [hne, hdec]

/-- Witness for C2's amended claim at the payload "AAA". -/
theorem undecodable_base64_server_error_witness :
    b64decode (stripDataUrl "AAA") = none ∧
    transcribeBase64 defaultConfig
      ⟨"/tmp/tmpc2w", none, none, true, TorchProbe.importError, none,
        fun _ => Except.error "unreached"⟩
      ⟨some "AAA", none, none, none⟩ ⟨⟨[], none⟩, []⟩ =
      (Except.error ⟨500, "Invalid base64-encoded string"⟩, ⟨⟨[], none⟩, []⟩) :=
  ⟨rfl,
   undecodable_base64_server_error defaultConfig
     ⟨"/tmp/tmpc2w", none, none, true, TorchProbe.importError, none,
       fun _ => Except.error "unreached"⟩
     ⟨some "AAA", none, none, none⟩ ⟨⟨[], none⟩, []⟩ "AAA" rfl (by decide) rfl⟩

/-- C6: a fault while writing the decoded audio raises after
NamedTemporaryFile has created the file but before tmp_path is assigned, so
the finally block skips the unlink and the call returns with the ephemeral
file still on disk — refuting deletion on every exit path. -/
theorem tmpfile_leaked_when_write_fails :
    (transcribeBase64 defaultConfig
      ⟨"/tmp/tmpc6", none, some "No space left on device", true,
        TorchProbe.importError, none, fun _ => Except.error "unreached"⟩
      ⟨some "AAAA", none, none, none⟩ ⟨⟨[], none⟩, []⟩).1 =
      Except.error ⟨500, "No space left on device"⟩ ∧
    "/tmp/tmpc6.webm" ∈
      ((transcribeBase64 defaultConfig
        ⟨"/tmp/tmpc6", none, some "No space left on device", true,
          TorchProbe.importError, none, fun _ => Except.error "unreached"⟩
        ⟨some "AAAA", none, none, none⟩ ⟨⟨[], none⟩, []⟩).2).files.map Prod.fst :=
  ⟨rfl, by decide⟩

/-- C1: the source takes no lock between get_model's cache membership test
(line 58) and the model construction and insertion (lines 75-83), so two
concurrent calls for the same uncached identifier can both pass the test
before either loads: under the schedule check1, check2, load1, load2 the
underlying load runs twice, refuting at-most-one-load-per-identifier. -/
theorem race_double_load :
    (runRace "small" [false, true, false, true]
      ⟨[], 0, LoadPc.checkCache, LoadPc.checkCache⟩).loads = 2 ∧
    (runRace "small" [false, true, false, true]
      ⟨[], 0, LoadPc.checkCache, LoadPc.checkCache⟩).pc1 = LoadPc.finished ∧
    (runRace "small" [false, true, false, true]
      ⟨[], 0, LoadPc.checkCache, LoadPc.checkCache⟩).pc2 = LoadPc.finished := by
  decide

/-- C9: on every successful result of either endpoint, the response text is
the space-joined concatenation of the individually trimmed segment texts in
segment order, and each per-segment text field of the /transcribe response is
itself the trimmed engine text. -/
theorem fullText_is_trimmed_join (cfg : Config) (env : CallEnv)
    (audio : UploadFile) (model : String) (language : Option String)
    (task : String) (request : B64Request) (w w2 : World)
    (segs : List Segment) (info : TranscriptionInfo)
    (hinf : env.inference = fun _ => Except.ok (segs, info)) :
    (∀ body, (transcribe cfg env audio model language task w).1 = Except.ok body →
      body.text = String.intercalate " " (segs.map (fun sg => pyStrip sg.text)) ∧
      body.segments.map (fun sg => sg.text) = segs.map (fun sg => pyStrip sg.text)) ∧
    (∀ body, (transcribeBase64 cfg env request w2).1 = Except.ok body →
      body.text = String.intercalate " " (segs.map (fun sg => pyStrip sg.text))) := by
  constructor
  · intro body hb
    simp only [transcribe, hinf] at hb
    split at hb
    · simp at hb
    split at hb
    · simp at hb
    split at hb
    · simp at hb
    split at hb
    · simp at hb
    · simp only [Prod.fst, Except.ok.injEq] at hb
      subst hb
      exact ⟨rfl, by simp [segmentsOut, List.map_map, Function.comp]⟩
  · intro body hb
    simp only [transcribeBase64, hinf] at hb
    split at hb
    · simp at hb
    split at hb
    · simp at hb
    split at hb
    · simp at hb
    split at hb
    · simp at hb
    · simp only [Prod.fst, Except.ok.injEq] at hb
      subst hb
      exact rfl

/-- Witness for C9: a concrete successful call with two padded segment texts. -/
theorem fullText_is_trimmed_join_witness :
    (⟨"Hello world", "en", 1, 2,
        [⟨0, 1, "Hello", -1⟩, ⟨1, 2, "world", -2⟩]⟩ : TranscribeResponse).text =
      String.intercalate " "
        (([⟨0, 1, "  Hello ", -1⟩, ⟨1, 2, "world  ", -2⟩] : List Segment).map
          (fun sg => pyStrip sg.text)) ∧
    (⟨"Hello world", "en", 1, 2,
        [⟨0, 1, "Hello", -1⟩, ⟨1, 2, "world", -2⟩]⟩ : TranscribeResponse).segments.map
        (fun sg => sg.text) =
      ([⟨0, 1, "  Hello ", -1⟩, ⟨1, 2, "world  ", -2⟩] : List Segment).map
        (fun sg => pyStrip sg.text) :=
  (fullText_is_trimmed_join defaultConfig
    ⟨"/tmp/tmpw9", none, none, true, TorchProbe.importError, none,
      fun _ => Except.ok ([⟨0, 1, "  Hello ", -1⟩, ⟨1, 2, "world  ", -2⟩], ⟨"en", 1, 2⟩)⟩
    ⟨"clip.mp3", [1, 2, 3]⟩ "base" none "transcribe" ⟨none, none, none, none⟩
    ⟨⟨[], none⟩, []⟩ ⟨⟨[], none⟩, []⟩
    [⟨0, 1, "  Hello ", -1⟩, ⟨1, 2, "world  ", -2⟩] ⟨"en", 1, 2⟩ rfl).1
    ⟨"Hello world", "en", 1, 2, [⟨0, 1, "Hello", -1⟩, ⟨1, 2, "world", -2⟩]⟩ (by decide)

end WhisperServer
